import Mathlib

/-!
Shallow embedding of `src/AutoPush.py` (the AutoPush repository).

The program is a single-threaded cooperative scheduler: `check_config_changes`
polls the configuration file via its modification time and, on a change,
cancels every registered project job, reloads the configuration, pushes the
credentials to the two external collaborators and re-registers one recurring
`commit_and_push` task per project through `sync_project`.

External collaborators (the `git_utils`, `genai_utils` modules, the file
system and the `schedule` library internals) are out of scope of the spec and
are modelled as environments recording the results of each external call.
Modification times are modelled by natural numbers, since only their ordering
is ever consulted.
-/

namespace AutoPush

/-- Python string truthiness for an optional string result: `None` and the
empty string are falsy, every other string is truthy.  Used for
`if not remote_url`, `if diff`, `if not commit_message`. -/
def optStrTruthy : Option String → Bool
  | none => false
  | some s => !s.isEmpty

/-- Check whether the first character list starts the second one. -/
def charsStartWith : List Char → List Char → Bool
  | [], _ => true
  | _ :: _, [] => false
  | a :: as, b :: bs => a == b && charsStartWith as bs

/-- Check whether the first character list occurs inside the second. -/
def charsContain : List Char → List Char → Bool
  | needle, [] => needle.isEmpty
  | needle, b :: bs => charsStartWith needle (b :: bs) || charsContain needle bs

/-- Substring test on characters, modelling the Python expression
`needle in hay` for strings. -/
def strContains (needle hay : String) : Bool :=
  charsContain needle.toList hay.toList

/-- Sentinel marker checked at src/AutoPush.py:85. -/
def sentinel : String := "SYNTAX_ERROR"

/-- Fallback commit message substituted at src/AutoPush.py:83. -/
def fallbackMessage : String := "Auto commit"

/-- One entry of the `projects` list as parsed from JSON.  Bracket access
`config[k]` raises `KeyError` when the key is absent, hence `Option`
fields; `private` is read with `config.get(..., False)` and cannot raise. -/
structure ProjectEntry where
  folder_path : Option String
  repo_name : Option String
  interval : Option Nat
  privateFlag : Option Bool
deriving DecidableEq

/-- The configuration document (src/AutoPush.py:114-125 `load_config`).
Absent keys are `none`; `projects` is read with `config.get('projects', [])`. -/
structure Config where
  github_user : Option String
  github_token : Option String
  google_api_key : Option String
  projects : Option (List ProjectEntry)
deriving DecidableEq

/-- A scheduled task: the reload task registered once by `main`
(src/AutoPush.py:166), or a recurring project synchronisation task
(src/AutoPush.py:110). -/
inductive Task
  | reload
  | projectSync (folder_path repo_name : String) (interval : Nat)
deriving DecidableEq

/-- Results of the external calls made by `sync_project` for one project:
the version-control tool and the hosting collaborator are out-of-scope
externals, so their outcomes form an environment. -/
structure GitEnv where
  gitDirExists : Bool
  initOk : Bool
  configRebaseOk : Bool
  remoteUrl : Option String
  lsRemoteOk : Bool
  createRepoOk : Bool
  originExists : Bool
  addOriginOk : Bool
deriving DecidableEq

/-- Setup part of `sync_project` (src/AutoPush.py:27-67): reads the three
required keys (a missing one raises `KeyError`, modelled as `.error ()`),
then runs the setup sequence with early `return` on failure (`.ok none`),
reaching task registration only if every step passed (`.ok (some task)`). -/
def sync_project_core (g : GitEnv) (e : ProjectEntry) : Except Unit (Option Task) :=
  match e.folder_path with
  | none => .error ()
  | some folder_path =>
  match e.repo_name with
  | none => .error ()
  | some repo_name =>
  match e.interval with
  | none => .error ()
  | some interval =>
  if !g.gitDirExists && !g.initOk then .ok none
  else if !g.gitDirExists && !g.configRebaseOk then .ok none
  else if !(optStrTruthy g.remoteUrl) then .ok none
  else if !g.lsRemoteOk && !g.createRepoOk then .ok none
  else if !g.originExists && !g.addOriginOk then .ok none
  else .ok (some (Task.projectSync folder_path repo_name interval))

/-- Full `sync_project` on the `(jobs, sched)` state: on success the new
job is appended to the `jobs` registry and to the scheduler list
(src/AutoPush.py:110-111); an abort leaves the state unchanged; a
`KeyError` propagates to the caller. -/
def sync_project (g : GitEnv) (e : ProjectEntry)
    (st : List Task × List Task) : Except Unit (List Task × List Task) :=
  match sync_project_core g e with
  | .error u => .error u
  | .ok none => .ok st
  | .ok (some job) => .ok (st.1 ++ [job], st.2 ++ [job])

/-- Whether every external call of the setup sequence lets `sync_project`
reach the registration at src/AutoPush.py:110. -/
def setupSucceeds (g : GitEnv) : Bool :=
  (g.gitDirExists || (g.initOk && g.configRebaseOk)) &&
  optStrTruthy g.remoteUrl &&
  (g.lsRemoteOk || g.createRepoOk) &&
  (g.originExists || g.addOriginOk)

/-- Whether a project entry carries the three keys whose bracket access in
`sync_project` would otherwise raise `KeyError`. -/
def ProjectEntry.wellFormed (e : ProjectEntry) : Bool :=
  e.folder_path.isSome && e.repo_name.isSome && e.interval.isSome

/-- Registration loop `for project_config in projects: sync_project(...)`
(src/AutoPush.py:152-153).  A raised `KeyError` escapes the loop to the
outer handler of `check_config_changes`; the Boolean records whether that
happened, the pair is the `(jobs, sched)` state at that moment. -/
def registerProjects (genv : Nat → GitEnv) :
    List ProjectEntry → Nat → List Task × List Task → Bool × (List Task × List Task)
  | [], _, st => (false, st)
  | e :: rest, i, st =>
    match sync_project (genv i) e st with
    | .error _ => (true, st)
    | .ok st1 => registerProjects genv rest (i + 1) st1

/-- Process-wide mutable state: the last-seen config modification time, the
`jobs` registry, the scheduler task list (which also holds the reload task
registered by `main`), the credentials last pushed to the two collaborators
(outer `none` means never configured) and the `config` global. -/
structure AppState where
  config_last_modified : Option Nat
  jobs : List Task
  sched : List Task
  gitUser : Option (Option String)
  gitToken : Option (Option String)
  genaiKey : Option (Option String)
  config : Option Config
deriving DecidableEq

/-- Environment of one `check_config_changes` call: the result of
`os.path.getmtime` (`none` models `FileNotFoundError`), the result of
`load_config` (`none` models a missing or malformed — Python-falsy —
document) and the external-call results for registering the i-th project. -/
structure WatchEnv where
  mtime : Option Nat
  loadResult : Option Config
  genv : Nat → GitEnv

/-- Condition at src/AutoPush.py:133:
`config_last_modified is None or current_last_modified > config_last_modified`. -/
def mtimeChanged : Option Nat → Nat → Bool
  | none, _ => true
  | some last, current => decide (last < current)

/-- Effect of `for job in jobs: schedule.cancel_job(job)` followed by
`jobs.clear()` on the scheduler list (src/AutoPush.py:137-139): every job
held in the registry is removed from the scheduler list. -/
def cancelJobs (jobsReg sched : List Task) : List Task :=
  sched.filter (fun t => decide (t ∉ jobsReg))

/-- Translation of `check_config_changes` (src/AutoPush.py:127-160).
Returns the new state together with a flag telling whether the outer
`except Exception` handler fired (a `KeyError` escaping `sync_project`).
A `FileNotFoundError` from `getmtime` is logged and leaves the state
untouched; a failed `load_config` still leaves the registry cleared and
sets the `config` global to `None` before the early `return`. -/
def check_config_changes (env : WatchEnv) (st : AppState) : AppState × Bool :=
  match env.mtime with
  | none => (st, false)
  | some current =>
    if mtimeChanged st.config_last_modified current then
      let st1 : AppState := { st with config_last_modified := some current }
      let st2 : AppState := { st1 with jobs := [], sched := cancelJobs st1.jobs st1.sched }
      match env.loadResult with
      | none => ({ st2 with config := none }, false)
      | some cfg =>
        let st3 : AppState := { st2 with
          config := some cfg,
          gitUser := some cfg.github_user,
          gitToken := some cfg.github_token,
          genaiKey := some cfg.google_api_key }
        let r := registerProjects env.genv (cfg.projects.getD []) 0 (st3.jobs, st3.sched)
        ({ st3 with jobs := r.2.1, sched := r.2.2 }, r.1)
    else (st, false)

/-- Results of the external calls of one `commit_and_push` cycle
(src/AutoPush.py:70-108): `git add`, `git diff` text, the generated commit
message (`none` models generation failure), and the `commit`, `pull`,
`push` outcomes. -/
structure CycleEnv where
  addOk : Bool
  diff : Option String
  genMessage : Option String
  commitOk : Bool
  pullOk : Bool
  pushOk : Bool
deriving DecidableEq

/-- Observable events of one `commit_and_push` cycle: collaborator calls
and the two distinguished log lines. -/
inductive CycleEvent
  | add
  | diffOp
  | genMsg
  | logNothingToPush
  | logSyntaxError
  | commit (message : String)
  | pull
  | push
deriving DecidableEq

/-- Commit message after the fallback at src/AutoPush.py:81-83: a falsy
generation result is replaced by the literal fallback text. -/
def effectiveMessage (env : CycleEnv) : String :=
  match env.genMessage with
  | none => fallbackMessage
  | some s => if s.isEmpty then fallbackMessage else s

/-- Translation of the `commit_and_push` closure (src/AutoPush.py:70-108)
as the ordered trace of collaborator calls and distinguished log lines it
emits.  Each failing step logs and returns, ending the cycle. -/
def commit_and_push (env : CycleEnv) : List CycleEvent :=
  CycleEvent.add ::
    (if !env.addOk then []
     else CycleEvent.diffOp ::
       (if optStrTruthy env.diff then
          CycleEvent.genMsg ::
            (let message := effectiveMessage env
             if strContains sentinel message then [CycleEvent.logSyntaxError]
             else CycleEvent.commit message ::
               (if !env.commitOk then []
                else CycleEvent.pull ::
                  (if !env.pullOk then []
                   else [CycleEvent.push])))
        else [CycleEvent.logNothingToPush]))

/-! Concrete objects used by witnesses and counterexamples. -/

/-- A remote URL value for concrete environments. -/
def urlA : String := "https://example.test/demo.git"

/-- Environment in which every external setup call succeeds. -/
def goodGitEnv : GitEnv :=
  { gitDirExists := true, initOk := true, configRebaseOk := true,
    remoteUrl := some urlA, lsRemoteOk := true, createRepoOk := true,
    originExists := true, addOriginOk := true }

/-- Environment in which the remote URL cannot be resolved, so the setup
sequence of `sync_project` aborts before registering the task. -/
def badGitEnv : GitEnv := { goodGitEnv with remoteUrl := none }

/-- A folder path for concrete project entries. -/
def pathA : String := "/tmp/p"

/-- A second folder path for concrete project entries. -/
def pathB : String := "/tmp/q"

/-- A repository name for concrete project entries. -/
def repoA : String := "demo"

/-- A second repository name for concrete project entries. -/
def repoB : String := "demo2"

/-- A complete project entry. -/
def entryA : ProjectEntry :=
  { folder_path := some pathA, repo_name := some repoA,
    interval := some 5, privateFlag := none }

/-- A second complete project entry. -/
def entryB : ProjectEntry :=
  { folder_path := some pathB, repo_name := some repoB,
    interval := some 7, privateFlag := none }

/-- A project entry missing the `repo_name` key: reading it raises
`KeyError` at src/AutoPush.py:30. -/
def entryBad : ProjectEntry :=
  { folder_path := some pathB, repo_name := none,
    interval := some 5, privateFlag := none }

/-- The task `sync_project` registers for `entryA`. -/
def taskA : Task := Task.projectSync pathA repoA 5

/-- A configuration holding the single project `entryA`. -/
def cfgA : Config :=
  { github_user := some repoA, github_token := some repoA,
    google_api_key := some repoA, projects := some [entryA] }

/-- A configuration holding the two projects `entryA` and `entryB`. -/
def cfgAB : Config :=
  { cfgA with projects := some [entryA, entryB] }

/-- A configuration whose second project entry is missing a key. -/
def cfgBadKey : Config :=
  { cfgA with projects := some [entryA, entryBad, entryB] }

/-- A state after one valid load: marker recorded, one project task
registered, the reload task in the scheduler list. -/
def stA : AppState :=
  { config_last_modified := some 0, jobs := [taskA],
    sched := [Task.reload, taskA], gitUser := some (some repoA),
    gitToken := some (some repoA), genaiKey := some (some repoA),
    config := some cfgA }

/-- The empty string, as an empty staged diff. -/
def emptyText : String := ""

/-- A non-empty staged diff text. -/
def diffText : String := "some staged diff"

/-- A generated message carrying the sentinel error marker. -/
def sentinelMessage : String := "SYNTAX_ERROR detected"

/-- An ordinary generated commit message. -/
def goodMessage : String := "update readme"

/-- A cycle environment with an empty staged diff. -/
def envEmptyDiff : CycleEnv :=
  { addOk := true, diff := some emptyText, genMessage := some goodMessage,
    commitOk := true, pullOk := true, pushOk := true }

/-- A cycle environment whose generated message carries the sentinel. -/
def envSentinel : CycleEnv :=
  { envEmptyDiff with diff := some diffText, genMessage := some sentinelMessage }

/-- A cycle environment whose message generation failed. -/
def envNoMessage : CycleEnv :=
  { envEmptyDiff with diff := some diffText, genMessage := none }

/-- A cycle environment whose pull fails after a successful commit. -/
def envPullFails : CycleEnv :=
  { envEmptyDiff with diff := some diffText, pullOk := false }

/-! Helper lemmas about `sync_project`. -/

/-- A well-formed entry whose setup environment succeeds makes
`sync_project_core` produce a task. -/
theorem sync_project_core_some (g : GitEnv) (e : ProjectEntry)
    (hw : e.wellFormed = true) (hs : setupSucceeds g = true) :
    ∃ job, sync_project_core g e = Except.ok (some job) := by
  obtain ⟨fp, rn, iv, pv⟩ := e
  simp only [ProjectEntry.wellFormed] at hw
  cases fp with
  | none => simp at hw
  | some fpv =>
  cases rn with
  | none => simp at hw
  | some rnv =>
  cases iv with
  | none => simp at hw
  | some ivv =>
  obtain ⟨dir, ini, reb, url, lsr, cre, ori, ado⟩ := g
  simp only [setupSucceeds] at hs
  cases dir <;> cases ini <;> cases reb <;> cases lsr <;> cases cre <;>
    cases ori <;> cases ado <;>
    simp_all [sync_project_core, optStrTruthy]

/-- A well-formed entry never raises from `sync_project_core`. -/
theorem sync_project_core_ok (g : GitEnv) (e : ProjectEntry)
    (hw : e.wellFormed = true) :
    ∃ o, sync_project_core g e = Except.ok o := by
  obtain ⟨fp, rn, iv, pv⟩ := e
  simp only [ProjectEntry.wellFormed] at hw
  cases fp with
  | none => simp at hw
  | some fpv =>
  cases rn with
  | none => simp at hw
  | some rnv =>
  cases iv with
  | none => simp at hw
  | some ivv =>
  simp only [sync_project_core]
  repeat' split
  all_goals exact ⟨_, rfl⟩

/-- An entry missing a required key raises `KeyError` from
`sync_project_core`. -/
theorem sync_project_core_error (g : GitEnv) (e : ProjectEntry)
    (hw : e.wellFormed = false) :
    sync_project_core g e = Except.error () := by
  obtain ⟨fp, rn, iv, pv⟩ := e
  simp only [ProjectEntry.wellFormed] at hw
  cases fp <;> cases rn <;> cases iv <;> simp_all [sync_project_core]

/-- A successful `sync_project` run only ever appends the same new jobs to
the registry and to the scheduler list. -/
theorem sync_project_shape (g : GitEnv) (e : ProjectEntry)
    (st st1 : List Task × List Task)
    (h : sync_project g e st = Except.ok st1) :
    ∃ d, st1 = (st.1 ++ d, st.2 ++ d) := by
  unfold sync_project at h
  cases hc : sync_project_core g e with
  | error u => rw [hc] at h; cases h
  | ok o =>
    rw [hc] at h
    cases o with
    | none =>
      refine ⟨[], ?_⟩
      cases h
      simp
    | some job =>
      refine ⟨[job], ?_⟩
      cases h
      rfl

/-- The registration loop only ever appends the same new jobs to the
registry and to the scheduler list, whether or not it raises. -/
theorem registerProjects_shape (genv : Nat → GitEnv) :
    ∀ (entries : List ProjectEntry) (i : Nat) (st : List Task × List Task),
    ∃ d, (registerProjects genv entries i st).2 = (st.1 ++ d, st.2 ++ d) := by
  intro entries
  induction entries with
  | nil => intro i st; exact ⟨[], by simp [registerProjects]⟩
  | cons e rest ih =>
    intro i st
    cases hc : sync_project (genv i) e st with
    | error u =>
      exact ⟨[], by simp [registerProjects, hc]⟩
    | ok st1 =>
      obtain ⟨d0, hd0⟩ := sync_project_shape (genv i) e st st1 hc
      obtain ⟨d1, hd1⟩ := ih (i + 1) st1
      subst hd0
      refine ⟨d0 ++ d1, ?_⟩
      simp [registerProjects, hc, hd1, List.append_assoc]

/-- A registration loop over well-formed entries with succeeding setup
environments raises nothing and appends exactly one task per entry. -/
theorem registerProjects_success (genv : Nat → GitEnv)
    (hset : ∀ i, setupSucceeds (genv i) = true) :
    ∀ (entries : List ProjectEntry), (∀ e ∈ entries, e.wellFormed = true) →
    ∀ (i : Nat) (st : List Task × List Task),
    ∃ d, registerProjects genv entries i st = (false, (st.1 ++ d, st.2 ++ d)) ∧
      d.length = entries.length := by
  intro entries
  induction entries with
  | nil =>
    intro _ i st
    exact ⟨[], by simp [registerProjects], rfl⟩
  | cons e rest ih =>
    intro hwf i st
    have he : e.wellFormed = true := hwf e (by simp)
    obtain ⟨job, hjob⟩ := sync_project_core_some (genv i) e he (hset i)
    obtain ⟨d, hd, hlen⟩ :=
      ih (fun x hx => hwf x (by simp [hx])) (i + 1) (st.1 ++ [job], st.2 ++ [job])
    refine ⟨job :: d, ?_, by simp [hlen]⟩
    simp [registerProjects, sync_project, hjob, hd, List.append_assoc]

/-- A well-formed entry makes `sync_project` succeed (possibly without
registering anything). -/
theorem sync_project_ok (g : GitEnv) (e : ProjectEntry)
    (hw : e.wellFormed = true) (st : List Task × List Task) :
    ∃ st1, sync_project g e st = Except.ok st1 := by
  obtain ⟨o, ho⟩ := sync_project_core_ok g e hw
  cases o with
  | none => exact ⟨st, by simp [sync_project, ho]⟩
  | some job => exact ⟨(st.1 ++ [job], st.2 ++ [job]), by simp [sync_project, ho]⟩

/-- When the entries after a well-formed prefix start with an ill-formed
one, the registration loop raises there: the entries after the ill-formed
one play no role, and the raise is reported to the caller. -/
theorem registerProjects_stops (genv : Nat → GitEnv) (bad : ProjectEntry)
    (hb : bad.wellFormed = false) :
    ∀ (pre : List ProjectEntry), (∀ e ∈ pre, e.wellFormed = true) →
    ∀ (post : List ProjectEntry) (i : Nat) (st : List Task × List Task),
    registerProjects genv (pre ++ bad :: post) i st =
      registerProjects genv (pre ++ [bad]) i st ∧
    (registerProjects genv (pre ++ bad :: post) i st).1 = true := by
  intro pre
  induction pre with
  | nil =>
    intro _ post i st
    have he := sync_project_core_error (genv i) bad hb
    constructor <;> simp [registerProjects, sync_project, he]
  | cons e rest ih =>
    intro hwf post i st
    have he : e.wellFormed = true := hwf e (by simp)
    obtain ⟨st1, h1⟩ := sync_project_ok (genv i) e he st
    have hrec := ih (fun x hx => hwf x (by simp [hx])) post (i + 1) st1
    constructor
    · simp [registerProjects, h1, hrec.1]
    · simp [registerProjects, h1, hrec.2]

/-! Claim theorems. -/

/-- C1: when `check_config_changes` observes a modification time strictly
newer than the previously recorded one and the subsequent reload fails
(missing or malformed config file), the project-task registry ends up
empty: the previously scheduled project tasks are cancelled from the
scheduler list and not restored. -/
theorem C1_failed_reload_empties_registry
    (env : WatchEnv) (st : AppState) (t current : Nat)
    (hlast : st.config_last_modified = some t)
    (hm : env.mtime = some current)
    (hnew : t < current)
    (hload : env.loadResult = none) :
    (check_config_changes env st).1.jobs = [] ∧
    (check_config_changes env st).1.sched = cancelJobs st.jobs st.sched := by
  simp [check_config_changes, hm, hlast, hload, mtimeChanged, hnew]

/-- C1 witness at a concrete state and environment. -/
theorem C1_witness :
    (check_config_changes ⟨some 1, none, fun _ => goodGitEnv⟩ stA).1.jobs = [] ∧
    (check_config_changes ⟨some 1, none, fun _ => goodGitEnv⟩ stA).1.sched =
      cancelJobs stA.jobs stA.sched :=
  C1_failed_reload_empties_registry ⟨some 1, none, fun _ => goodGitEnv⟩
    stA 0 1 rfl rfl (by decide) rfl

/-- C4: when the recorded observation exists and the modification time read
now is the same, the poll is a no-op: the task registry, the last-modified
marker and the collaborator credentials are all left untouched, and no
exception reaches the outer handler. -/
theorem C4_unchanged_mtime_noop
    (env : WatchEnv) (st : AppState) (t : Nat)
    (hlast : st.config_last_modified = some t)
    (hm : env.mtime = some t) :
    check_config_changes env st = (st, false) := by
  simp [check_config_changes, hm, hlast, mtimeChanged]

/-- C4 witness at a concrete state and environment. -/
theorem C4_witness :
    check_config_changes ⟨some 0, some cfgAB, fun _ => goodGitEnv⟩ stA = (stA, false) :=
  C4_unchanged_mtime_noop ⟨some 0, some cfgAB, fun _ => goodGitEnv⟩ stA 0 rfl rfl

/-- C5: in a cycle where staging succeeded and the staged diff is empty
(falsy), no commit, pull or push call occurs and the cycle logs that there
is nothing to push. -/
theorem C5_empty_diff_no_git_ops
    (env : CycleEnv)
    (hadd : env.addOk = true)
    (hdiff : optStrTruthy env.diff = false) :
    (∀ m, CycleEvent.commit m ∉ commit_and_push env) ∧
    CycleEvent.pull ∉ commit_and_push env ∧
    CycleEvent.push ∉ commit_and_push env ∧
    CycleEvent.logNothingToPush ∈ commit_and_push env := by
  simp [commit_and_push, hadd, hdiff]

/-- C5 witness: a concrete cycle with an empty staged diff. -/
theorem C5_witness :
    CycleEvent.pull ∉ commit_and_push envEmptyDiff ∧
    CycleEvent.push ∉ commit_and_push envEmptyDiff ∧
    CycleEvent.logNothingToPush ∈ commit_and_push envEmptyDiff :=
  (C5_empty_diff_no_git_ops envEmptyDiff rfl rfl).2

/-- C6: in a cycle where the commit message obtained after the fallback
substitution contains the sentinel error marker, the cycle aborts: no
commit, pull or push call occurs. -/
theorem C6_sentinel_aborts
    (env : CycleEnv)
    (hadd : env.addOk = true)
    (hdiff : optStrTruthy env.diff = true)
    (hsen : strContains sentinel (effectiveMessage env) = true) :
    (∀ m, CycleEvent.commit m ∉ commit_and_push env) ∧
    CycleEvent.pull ∉ commit_and_push env ∧
    CycleEvent.push ∉ commit_and_push env := by
  simp [commit_and_push, hadd, hdiff, hsen]

/-- C6 witness: a concrete cycle whose generated message carries the
sentinel marker. -/
theorem C6_witness :
    CycleEvent.pull ∉ commit_and_push envSentinel ∧
    CycleEvent.push ∉ commit_and_push envSentinel :=
  (C6_sentinel_aborts envSentinel rfl rfl (by decide)).2

/-- C7: in a cycle with a non-empty staged diff where message generation
fails or returns an empty string, the commit call is made with the literal
fallback message. -/
theorem C7_fallback_message
    (env : CycleEnv)
    (hadd : env.addOk = true)
    (hdiff : optStrTruthy env.diff = true)
    (hgen : optStrTruthy env.genMessage = false) :
    CycleEvent.commit fallbackMessage ∈ commit_and_push env := by
  have hmsg : effectiveMessage env = fallbackMessage := by
    cases hg : env.genMessage with
    | none => simp [effectiveMessage, hg]
    | some s =>
      simp [optStrTruthy, hg] at hgen
      simp [effectiveMessage, hg, hgen]
  have hns : strContains sentinel fallbackMessage = false := by decide
  simp [commit_and_push, hadd, hdiff, hmsg, hns]

/-- C7 witness: a concrete cycle whose message generation failed. -/
theorem C7_witness :
    CycleEvent.commit fallbackMessage ∈ commit_and_push envNoMessage :=
  C7_fallback_message envNoMessage rfl rfl rfl

/-- C8: in a cycle where the commit call succeeds but the subsequent pull
fails, no push call occurs, while the commit call with the effective
message did happen. -/
theorem C8_pull_failure_no_push
    (env : CycleEnv)
    (hadd : env.addOk = true)
    (hdiff : optStrTruthy env.diff = true)
    (hsen : strContains sentinel (effectiveMessage env) = false)
    (hcommit : env.commitOk = true)
    (hpull : env.pullOk = false) :
    CycleEvent.push ∉ commit_and_push env ∧
    CycleEvent.commit (effectiveMessage env) ∈ commit_and_push env ∧
    CycleEvent.pull ∈ commit_and_push env := by
  simp [commit_and_push, hadd, hdiff, hsen, hcommit, hpull]

/-- C8 witness: a concrete cycle with a failing pull after a successful
commit. -/
theorem C8_witness :
    CycleEvent.push ∉ commit_and_push envPullFails ∧
    CycleEvent.commit (effectiveMessage envPullFails) ∈ commit_and_push envPullFails ∧
    CycleEvent.pull ∈ commit_and_push envPullFails :=
  C8_pull_failure_no_push envPullFails rfl rfl (by decide) rfl rfl

/-- C2 counterexample: starting from a state with one scheduled project
task after a valid load, a poll that sees a newer modification time and a
failing reload does NOT retain the previous schedule (the registry is
emptied), and a next poll with the same modification time — even with the
config file readable again — is an exact no-op, so the reload is not
retried. -/
theorem C2_counterexample :
    (check_config_changes ⟨some 1, none, fun _ => goodGitEnv⟩ stA).1.jobs ≠ stA.jobs ∧
    check_config_changes ⟨some 1, some cfgA, fun _ => goodGitEnv⟩
        (check_config_changes ⟨some 1, none, fun _ => goodGitEnv⟩ stA).1 =
      ((check_config_changes ⟨some 1, none, fun _ => goodGitEnv⟩ stA).1, false) ∧
    (check_config_changes ⟨some 1, none, fun _ => goodGitEnv⟩ stA).1.jobs = [] := by
  decide

/-- C2 amended: when a reload attempt fails after a strictly newer
modification time was observed, the project-task registry is left empty
(the previous schedule is not retained) and the reload is not retried by a
later poll whose modification time has not advanced past the recorded
one. -/
theorem C2_amended_cleared_no_retry
    (env env2 : WatchEnv) (st : AppState) (t current m2 : Nat)
    (hlast : st.config_last_modified = some t)
    (hm : env.mtime = some current)
    (hnew : t < current)
    (hload : env.loadResult = none)
    (hm2 : env2.mtime = some m2)
    (hle : m2 ≤ current) :
    (check_config_changes env st).1.jobs = [] ∧
    check_config_changes env2 (check_config_changes env st).1 =
      ((check_config_changes env st).1, false) := by
  have hmark : (check_config_changes env st).1.config_last_modified = some current := by
    simp [check_config_changes, hm, hlast, hload, mtimeChanged, hnew]
  have hnoop : ∀ s : AppState, s.config_last_modified = some current →
      check_config_changes env2 s = (s, false) := by
    intro s hs
    simp [check_config_changes, hm2, hs, mtimeChanged, Nat.not_lt.mpr hle]
  constructor
  · simp [check_config_changes, hm, hlast, hload, mtimeChanged, hnew]
  · exact hnoop _ hmark

/-- C2 witness at a concrete state and environment pair. -/
theorem C2_witness :
    (check_config_changes ⟨some 1, none, fun _ => goodGitEnv⟩ stA).1.jobs = [] ∧
    check_config_changes ⟨some 1, some cfgA, fun _ => goodGitEnv⟩
        (check_config_changes ⟨some 1, none, fun _ => goodGitEnv⟩ stA).1 =
      ((check_config_changes ⟨some 1, none, fun _ => goodGitEnv⟩ stA).1, false) :=
  C2_amended_cleared_no_retry ⟨some 1, none, fun _ => goodGitEnv⟩
    ⟨some 1, some cfgA, fun _ => goodGitEnv⟩ stA 0 1 1
    rfl rfl (by decide) rfl rfl (by decide)

/-- C3 counterexample: a reload that completes without any exception (the
program even logs that the configuration was reloaded and the tasks
reprogrammed) on a config with one project whose setup aborts — the remote
URL is unavailable — leaves zero project tasks, not one, in the registry. -/
theorem C3_counterexample :
    cfgA.projects = some [entryA] ∧
    (check_config_changes ⟨some 1, some cfgA, fun _ => badGitEnv⟩ stA).2 = false ∧
    (check_config_changes ⟨some 1, some cfgA, fun _ => badGitEnv⟩ stA).1.jobs.length = 0 ∧
    (check_config_changes ⟨some 1, some cfgA, fun _ => badGitEnv⟩ stA).1.sched = [Task.reload] := by
  decide

/-- C3 amended: for a configuration with N project entries, all carrying
the required keys, a reload in which every project setup sequence succeeds
leaves exactly N project tasks in the registry, and the scheduler list is
exactly the reload task followed by those N tasks. -/
theorem C3_amended_registry_size
    (env : WatchEnv) (st : AppState) (current : Nat) (cfg : Config)
    (hm : env.mtime = some current)
    (hch : mtimeChanged st.config_last_modified current = true)
    (hload : env.loadResult = some cfg)
    (hwf : ∀ e ∈ cfg.projects.getD [], e.wellFormed = true)
    (hset : ∀ i, setupSucceeds (env.genv i) = true)
    (hcancel : cancelJobs st.jobs st.sched = [Task.reload]) :
    (check_config_changes env st).1.jobs.length = (cfg.projects.getD []).length ∧
    (check_config_changes env st).1.sched =
      Task.reload :: (check_config_changes env st).1.jobs := by
  obtain ⟨d, hd, hlen⟩ :=
    registerProjects_success env.genv hset (cfg.projects.getD []) hwf 0 ([], [Task.reload])
  constructor
  · simp [check_config_changes, hm, hch, hload, hcancel, hd, hlen]
  · simp [check_config_changes, hm, hch, hload, hcancel, hd]

/-- Every setup call succeeds in `goodGitEnv`. -/
theorem setupSucceeds_goodGitEnv : setupSucceeds goodGitEnv = true := by decide

/-- C3 witness: a reload of a two-project config in a fully succeeding
environment registers exactly two project tasks after the reload task. -/
theorem C3_witness :
    (check_config_changes ⟨some 1, some cfgAB, fun _ => goodGitEnv⟩ stA).1.jobs.length =
      (cfgAB.projects.getD []).length ∧
    (check_config_changes ⟨some 1, some cfgAB, fun _ => goodGitEnv⟩ stA).1.sched =
      Task.reload ::
        (check_config_changes ⟨some 1, some cfgAB, fun _ => goodGitEnv⟩ stA).1.jobs :=
  C3_amended_registry_size ⟨some 1, some cfgAB, fun _ => goodGitEnv⟩ stA 1 cfgAB
    rfl (by decide) rfl (by decide) (fun _ => setupSucceeds_goodGitEnv) (by decide)

/-- C9: a poll that detects a config change cancels every project task held
in the registry — such a task survives in the scheduler list only by being
freshly re-registered — while the reload task, which the registry never
holds, stays scheduled whether or not the reload itself succeeds. -/
theorem C9_reload_task_preserved
    (env : WatchEnv) (st : AppState) (current : Nat)
    (hm : env.mtime = some current)
    (hch : mtimeChanged st.config_last_modified current = true)
    (hrel : Task.reload ∈ st.sched)
    (hnj : Task.reload ∉ st.jobs) :
    Task.reload ∈ (check_config_changes env st).1.sched ∧
    ∀ x ∈ st.jobs, x ∈ (check_config_changes env st).1.sched →
      x ∈ (check_config_changes env st).1.jobs := by
  have hmemf : Task.reload ∈ cancelJobs st.jobs st.sched := by
    simp [cancelJobs, List.mem_filter, hrel, hnj]
  cases hl : env.loadResult with
  | none =>
    constructor
    · simpa [check_config_changes, hm, hch, hl] using hmemf
    · intro x hx hxs
      exfalso
      have hxc : x ∈ cancelJobs st.jobs st.sched := by
        simpa [check_config_changes, hm, hch, hl] using hxs
      simp [cancelJobs, List.mem_filter] at hxc
      exact hxc.2 hx
  | some cfg =>
    obtain ⟨d, hd⟩ :=
      registerProjects_shape env.genv (cfg.projects.getD []) 0
        ([], cancelJobs st.jobs st.sched)
    have hsched : (check_config_changes env st).1.sched =
        cancelJobs st.jobs st.sched ++ d := by
      simp [check_config_changes, hm, hch, hl, hd]
    have hjobs : (check_config_changes env st).1.jobs = d := by
      simp [check_config_changes, hm, hch, hl, hd]
    constructor
    · rw [hsched]
      exact List.mem_append_left _ hmemf
    · intro x hx hxs
      rw [hsched] at hxs
      rw [hjobs]
      rcases List.mem_append.mp hxs with hq | hq
      · exfalso
        simp [cancelJobs, List.mem_filter] at hq
        exact hq.2 hx
      · exact hq

/-- C9 witness: across a concrete reload the reload task stays scheduled. -/
theorem C9_witness :
    Task.reload ∈ (check_config_changes ⟨some 1, some cfgA, fun _ => goodGitEnv⟩ stA).1.sched :=
  (C9_reload_task_preserved ⟨some 1, some cfgA, fun _ => goodGitEnv⟩ stA 1
    rfl (by decide) (by decide) (by decide)).1

/-- C10: when the freshly loaded project list is a well-formed prefix, then
an entry missing a required key, then anything, the `KeyError` raised while
registering the bad entry is caught by the outer handler of
`check_config_changes`; the resulting registry is exactly what registering
the prefix up to the bad entry produces — the remaining projects are never
registered — and since the last-modified marker was already updated, a
later poll without a strictly newer modification time is a no-op, so
registration is not retried. -/
theorem C10_exception_stops_registration
    (env env2 : WatchEnv) (st : AppState) (current m2 : Nat) (cfg : Config)
    (pre post : List ProjectEntry) (bad : ProjectEntry)
    (hm : env.mtime = some current)
    (hch : mtimeChanged st.config_last_modified current = true)
    (hload : env.loadResult = some cfg)
    (hproj : cfg.projects = some (pre ++ bad :: post))
    (hwfpre : ∀ e ∈ pre, e.wellFormed = true)
    (hbad : bad.wellFormed = false)
    (hm2 : env2.mtime = some m2)
    (hle : m2 ≤ current) :
    (check_config_changes env st).2 = true ∧
    (check_config_changes env st).1.jobs =
      (registerProjects env.genv (pre ++ [bad]) 0 ([], cancelJobs st.jobs st.sched)).2.1 ∧
    (check_config_changes env st).1.config_last_modified = some current ∧
    check_config_changes env2 (check_config_changes env st).1 =
      ((check_config_changes env st).1, false) := by
  have hstop := registerProjects_stops env.genv bad hbad pre hwfpre post 0
    ([], cancelJobs st.jobs st.sched)
  have hmark : (check_config_changes env st).1.config_last_modified = some current := by
    simp [check_config_changes, hm, hch, hload, hproj]
  have hnoop : ∀ s : AppState, s.config_last_modified = some current →
      check_config_changes env2 s = (s, false) := by
    intro s hs
    simp [check_config_changes, hm2, hs, mtimeChanged, Nat.not_lt.mpr hle]
  refine ⟨?_, ?_, hmark, hnoop _ hmark⟩
  · simp [check_config_changes, hm, hch, hload, hproj, hstop.2]
  · simp [check_config_changes, hm, hch, hload, hproj, hstop.1]

/-- C10 witness: a config whose second entry is missing `repo_name` gets
its first project registered, the rest skipped, the raise reported, and no
retry on an unchanged modification time. -/
theorem C10_witness :
    (check_config_changes ⟨some 1, some cfgBadKey, fun _ => goodGitEnv⟩ stA).2 = true ∧
    (check_config_changes ⟨some 1, some cfgBadKey, fun _ => goodGitEnv⟩ stA).1.jobs =
      (registerProjects (fun _ => goodGitEnv) ([entryA] ++ [entryBad]) 0
        ([], cancelJobs stA.jobs stA.sched)).2.1 ∧
    (check_config_changes ⟨some 1, some cfgBadKey, fun _ => goodGitEnv⟩ stA).1.config_last_modified =
      some 1 ∧
    check_config_changes ⟨some 1, some cfgA, fun _ => goodGitEnv⟩
        (check_config_changes ⟨some 1, some cfgBadKey, fun _ => goodGitEnv⟩ stA).1 =
      ((check_config_changes ⟨some 1, some cfgBadKey, fun _ => goodGitEnv⟩ stA).1, false) :=
  C10_exception_stops_registration ⟨some 1, some cfgBadKey, fun _ => goodGitEnv⟩
    ⟨some 1, some cfgA, fun _ => goodGitEnv⟩ stA 1 1 cfgBadKey
    [entryA] [entryB] entryBad
    rfl (by decide) rfl (by decide) (by decide) (by decide) rfl (by decide)

end AutoPush
